import Mathlib

set_option maxRecDepth 40000
set_option maxHeartbeats 1000000

/-!
Shallow embedding of the farmer-backend 30-day weather-forecast core
(`src/modules/multi_location_predictor.py`, `src/models/preprocessor.py`,
`src/models/lstm_model.py`, `src/main.py`) together with theorems checking
the natural-language specification against it.

Numeric values are modelled as `Option ℚ`: `some q` is an ordinary float
value (exact rational arithmetic stands in for IEEE arithmetic, which is
adequate because every claim compares and counts values rather than
accumulating rounding error), and `none` is IEEE NaN.  All comparisons
against NaN are false, exactly as in numpy/pandas.
-/

namespace Farmer

/-- Float value: `some q` an ordinary value, `none` IEEE NaN. -/
abbrev Val := Option ℚ

/-- IEEE `>` against a constant: NaN compares false (numpy elementwise `>`). -/
def vgt (a : Val) (b : ℚ) : Bool :=
  match a with
  | none => false
  | some x => decide (x > b)

/-- IEEE `<` against a constant: NaN compares false (numpy elementwise `<`). -/
def vlt (a : Val) (b : ℚ) : Bool :=
  match a with
  | none => false
  | some x => decide (x < b)

/-- IEEE `<=` against a constant: NaN compares false (numpy elementwise `<=`). -/
def vle (a : Val) (b : ℚ) : Bool :=
  match a with
  | none => false
  | some x => decide (x ≤ b)

/-- Pairwise maximum with NaN propagation, as in `np.max`'s reduction. -/
def vmax (a b : Val) : Val :=
  match a, b with
  | some x, some y => some (max x y)
  | _, _ => none

/-- The `np.max` reduction over a nonempty array: NaN-propagating maximum.
The empty case never arises in the code (it is guarded by `df.empty`). -/
def npMax (l : List Val) : Val :=
  match l with
  | [] => none
  | x :: xs => xs.foldl vmax x

/-- Drop NaN entries, as pandas aggregations do with `skipna=True`. -/
def dropNaN (l : List Val) : List ℚ :=
  l.filterMap id

/-- The pandas `Series.sum`: NaN entries are skipped, empty sum is `0.0`. -/
def pdSum (l : List Val) : Val :=
  some (dropNaN l).sum

/-- The pandas `Series.mean`: NaN entries skipped; all-NaN mean is NaN. -/
def pdMean (l : List Val) : Val :=
  match dropNaN l with
  | [] => none
  | x :: xs => some ((x :: xs).sum / (x :: xs).length)

/-- The pandas `Series.max`: NaN entries skipped; all-NaN max is NaN. -/
def pdMax (l : List Val) : Val :=
  match dropNaN l with
  | [] => none
  | x :: xs => some (xs.foldl max x)

/-- The pandas `Series.min`: NaN entries skipped; all-NaN min is NaN. -/
def pdMin (l : List Val) : Val :=
  match dropNaN l with
  | [] => none
  | x :: xs => some (xs.foldl min x)

/-- The `0 if (np.isnan(x) or np.isinf(x)) else x` coercion in
`get_summary_stats` (infinities do not arise in the rational model). -/
def coerceNaN (v : Val) : ℚ :=
  v.getD 0

/-- One row of a predictions (or historical) DataFrame: a calendar date as a
day number plus the three model features in their canonical order. -/
structure WRow where
  date : ℤ
  temp_max : Val
  temp_min : Val
  rainfall : Val
deriving Repr, DecidableEq

/-- The summary-statistics dictionary built by
`MultiLocationPredictor.get_summary_stats`. -/
structure SummaryStats where
  avg_max_temp : ℚ
  avg_min_temp : ℚ
  max_temperature : ℚ
  min_temperature : ℚ
  total_rainfall : ℚ
  avg_daily_rainfall : ℚ
  rainy_days : ℕ
  dry_days : ℕ
deriving Repr, DecidableEq

/-- The alerts dictionary built by
`MultiLocationPredictor.get_alert_suggestions` (the `details` list is
created empty and never appended to in the source, so it is omitted). -/
structure Alerts where
  high_temperature : ℕ
  heavy_rainfall : ℕ
  drought_risk : ℕ
  frost_risk : ℕ
deriving Repr, DecidableEq

/-- Adaptive rain threshold from the maximum rainfall, exactly the
`if rainfall_max < 1.0 / elif rainfall_max < 5.0 / else` chain that appears
(twice, identically) in `get_summary_stats` and `get_alert_suggestions`.
A NaN maximum falls through both comparisons to `5.0`. -/
def rain_threshold_of_max (rainfall_max : Val) : ℚ :=
  if vlt rainfall_max 1 then 1/2
  else if vlt rainfall_max 5 then 1
  else 5

/-- Adaptive threshold computed by `get_summary_stats` from a rainfall
column (`rainfall_values = predictions_df['rainfall'].values`;
`rainfall_max = float(np.max(rainfall_values))`). -/
def summary_rain_threshold (rainfall_values : List Val) : ℚ :=
  rain_threshold_of_max (npMax rainfall_values)

/-- Embedding of `MultiLocationPredictor.get_summary_stats`: `none` is the
empty dictionary returned for an empty/absent DataFrame. -/
def get_summary_stats (predictions : List WRow) : Option SummaryStats :=
  if predictions = [] then none
  else
    let tmaxs := predictions.map (·.temp_max)
    let tmins := predictions.map (·.temp_min)
    let rains := predictions.map (·.rainfall)
    let t := summary_rain_threshold rains
    some {
      avg_max_temp := coerceNaN (pdMean tmaxs)
      avg_min_temp := coerceNaN (pdMean tmins)
      max_temperature := coerceNaN (pdMax tmaxs)
      min_temperature := coerceNaN (pdMin tmins)
      total_rainfall := coerceNaN (pdSum rains)
      avg_daily_rainfall := coerceNaN (pdMean rains)
      rainy_days := rains.countP (fun r => vgt r t)
      dry_days := rains.countP (fun r => vle r t) }

/-- The `dry_streak` / `max_dry_streak` loop of `get_alert_suggestions`,
with the running streak and the running maximum as accumulators. -/
def dry_streak_loop (t : ℚ) : List Val → ℕ → ℕ → ℕ
  | [], _, best => best
  | r :: rs, cur, best =>
    if vlt r t then dry_streak_loop t rs (cur + 1) (max best (cur + 1))
    else dry_streak_loop t rs 0 best

/-- The value of `max_dry_streak` after the loop in `get_alert_suggestions`. -/
def max_dry_streak (t : ℚ) (rainfall_values : List Val) : ℕ :=
  dry_streak_loop t rainfall_values 0 0

/-- Embedding of `MultiLocationPredictor.get_alert_suggestions`. An empty
DataFrame returns the all-zero alert dictionary. -/
def get_alert_suggestions (predictions : List WRow) : Alerts :=
  if predictions = [] then
    { high_temperature := 0, heavy_rainfall := 0, drought_risk := 0, frost_risk := 0 }
  else
    let rains := predictions.map (·.rainfall)
    let t := summary_rain_threshold rains
    { high_temperature := predictions.countP (fun r => vgt r.temp_max 40)
      heavy_rainfall := predictions.countP (fun r => vgt r.rainfall 50)
      drought_risk := if max_dry_streak t rains > 15 then 1 else 0
      frost_risk := predictions.countP (fun r => vlt r.temp_min 10) }

/-- ASCII lowercasing of one character, the behaviour of Python's
`str.lower()` on the ASCII location names this repository uses. -/
def asciiLower (c : Char) : Char :=
  if 'A' ≤ c ∧ c ≤ 'Z' then Char.ofNat (c.toNat + 32) else c

/-- Normalization in `_get_location_slug`:
`location_name.lower().replace(" ", "_").replace("-", "_")`.  Both
replacements are single-character, so they act pointwise. -/
def normalize_location (name : List Char) : List Char :=
  (name.map asciiLower).map (fun c => if c = ' ' ∨ c = '-' then '_' else c)

/-- Does `pat` occur at the very start of `txt`? (helper for the
substring test). -/
def leadsIn (pat txt : List Char) : Bool :=
  match pat, txt with
  | [], _ => true
  | _ :: _, [] => false
  | p :: ps, t :: ts => p = t && leadsIn ps ts

/-- Python's substring operator `pat in txt` on strings. -/
def occursIn (pat : List Char) : List Char → Bool
  | [] => pat.isEmpty
  | c :: ts => leadsIn pat (c :: ts) || occursIn pat ts

/-- The loose-match test of `_get_location_slug`:
`slug in model_slug or model_slug in slug`. -/
def slug_loose_match (slug model_slug : List Char) : Bool :=
  occursIn slug model_slug || occursIn model_slug slug

/-- Embedding of `MultiLocationPredictor._get_location_slug` over the list
of loaded model slugs in dict-insertion (discovery) order: normalize, try
exact key match, try the first partial match, fall back to the first
loaded slug, and raise (`Except.error`) only when no models are loaded. -/
def get_location_slug (model_slugs : List (List Char)) (location_name : List Char) :
    Except String (List Char) :=
  let slug := normalize_location location_name
  if slug ∈ model_slugs then .ok slug
  else
    match model_slugs.find? (fun m => slug_loose_match slug m) with
    | some m => .ok m
    | none =>
      match model_slugs with
      | m :: _ => .ok m
      | [] => .error "No models available"

/-- The 21 model slugs of `LOCATION_SLUG_MAPPING` (its values, in source
order), which are also the slugs the repository's own model files carry. -/
def repo_slugs : List (List Char) :=
  [ "kasaba_doddaballapura".toList
  , "doddabelavangala_doddaballapura".toList
  , "thubagere_doddaballapura".toList
  , "sasalu_doddaballapura".toList
  , "madhure_doddaballapura".toList
  , "kasaba_devanahalli".toList
  , "vijayapura_devanahalli".toList
  , "kundana_devanahalli".toList
  , "bettakote_devanahalli".toList
  , "undire_devanahalli".toList
  , "sulibele_hosakote".toList
  , "anugondanahalli_hosakote".toList
  , "jadigenahalli_hosakote".toList
  , "nandagudi_hosakote".toList
  , "kasaba_hosakote".toList
  , "kasaba_nelamangala".toList
  , "huliyurdurga_nelamangala".toList
  , "tyamagondlu_nelamangala".toList
  , "sompura_nelamangala".toList
  , "lakshmipura_nelamangala".toList
  , "makali_nelamangala".toList ]

/-- A feature triple in the canonical order `(temp_max, temp_min, rainfall)`. -/
abbrev Feat := Val × Val × Val

/-- Fitted state of sklearn's `MinMaxScaler(feature_range=(0, 1))` over the
3 canonical columns: the per-column data minimum and maximum learned by
`fit` and persisted in the scaler artifact. -/
structure MinMaxScalerFit where
  data_min : ℚ × ℚ × ℚ
  data_max : ℚ × ℚ × ℚ

/-- Per-column scale factor of `MinMaxScaler`: `1 / (data_max - data_min)`,
with sklearn's zero-range guard mapping a zero divisor to `1`. -/
def col_scale (mn mx : ℚ) : ℚ :=
  if mx = mn then 1 else 1 / (mx - mn)

/-- One column of `MinMaxScaler.transform`: `(x - data_min) * scale`
(NaN maps to NaN). -/
def mm_transform1 (mn mx : ℚ) (x : Val) : Val :=
  x.map (fun v => (v - mn) * col_scale mn mx)

/-- One column of `MinMaxScaler.inverse_transform`: `x / scale + data_min`
(NaN maps to NaN). -/
def mm_inverse1 (mn mx : ℚ) (x : Val) : Val :=
  x.map (fun v => v / col_scale mn mx + mn)

/-- Row-wise `MinMaxScaler.transform` over the 3 canonical columns. -/
def mm_transform (p : MinMaxScalerFit) (r : Feat) : Feat :=
  (mm_transform1 p.data_min.1 p.data_max.1 r.1,
   mm_transform1 p.data_min.2.1 p.data_max.2.1 r.2.1,
   mm_transform1 p.data_min.2.2 p.data_max.2.2 r.2.2)

/-- Row-wise `MinMaxScaler.inverse_transform` over the 3 canonical columns
(`WeatherPreprocessor.denormalize_predictions`). -/
def mm_inverse (p : MinMaxScalerFit) (r : Feat) : Feat :=
  (mm_inverse1 p.data_min.1 p.data_max.1 r.1,
   mm_inverse1 p.data_min.2.1 p.data_max.2.1 r.2.1,
   mm_inverse1 p.data_min.2.2 p.data_max.2.2 r.2.2)

/-- In-memory state of a `LocationModel` after `load()`:
`scaler = none` models the freshly constructed, never-fitted
`MinMaxScaler` that `WeatherPreprocessor.__init__` creates when no scaler
artifact was loaded; calling `transform` on it raises sklearn's
`NotFittedError`.  `network` is the loaded Keras model's input/output
function, a `30×3 → 30×3` map in normalized space. -/
structure LocationModel where
  location_slug : List Char
  scaler : Option MinMaxScalerFit
  network : List Feat → Fin 30 → Feat
  is_loaded : Bool

/-- The maximum of the `date` column, `historical_data_df['date'].max()`.
Only evaluated on nonempty history (the HTTP layer rejects histories with
fewer than 30 rows before any call reaches this point). -/
def pd_date_max (hist : List WRow) : ℤ :=
  ((hist.map (·.date)).max?).getD 0

/-- Embedding of `LocationModel.predict_next_30_days`: raise if not
loaded; take the 3 feature columns of the last 30 rows positionally
(`tail(30)`); normalize via the location's scaler, raising sklearn's
`NotFittedError` when the scaler was never fitted; run the network;
denormalize; attach dates `last_historical_date + 1 .. + 30`. -/
def predict_next_30_days (m : LocationModel) (historical_data : List WRow) :
    Except String (List WRow) :=
  if m.is_loaded = false then .error "Model not loaded"
  else
    let last_30_days : List Feat :=
      ((historical_data.map (fun r => (r.temp_max, r.temp_min, r.rainfall))).drop
        (historical_data.length - 30))
    match m.scaler with
    | none => .error "NotFittedError: This MinMaxScaler instance is not fitted yet"
    | some p =>
      let last_30_days_normalized := last_30_days.map (mm_transform p)
      let predictions_normalized := m.network last_30_days_normalized
      let predictions := fun i => mm_inverse p (predictions_normalized i)
      let start_date := pd_date_max historical_data + 1
      .ok ((List.finRange 30).map (fun (i : Fin 30) =>
        { date := start_date + (i.val : ℤ)
          temp_max := (predictions i).1
          temp_min := (predictions i).2.1
          rainfall := (predictions i).2.2 }))

/-- Embedding of `MultiLocationPredictor.predict_next_month`: resolve the
location slug (its failure propagates), look the model up in the registry
(`self.models`, an insertion-ordered mapping embedded as an association
list), and run the 30-day prediction. -/
def predict_next_month (models : List (List Char × LocationModel))
    (historical : List WRow) (location : List Char) : Except String (List WRow) :=
  match get_location_slug (models.map (·.1)) location with
  | .error e => .error e
  | .ok slug =>
    match models.lookup slug with
    | none => .error "Model not found for location"
    | some m => predict_next_30_days m historical

/-- Outcome environment for loading one location's artifacts.  The loaders
call external libraries (h5py, Keras, joblib) whose success or failure on a
given artifact is a fact about that artifact and library version, so the
embedding takes one Boolean per fallible external operation and the fitted
scaler content / network function carried by the artifacts when they load:
* `h5_extract_ok` — `WeatherLSTMModel.load_model` strategy 1 (direct HDF5
  weight extraction into a freshly built architecture, then compile);
* `keras_load_ok` — `tf.keras.models.load_model(path, compile=False)`
  (inner strategy 2's weight transfer and `LocationModel.load` strategy 2);
* `keras_custom_load_ok` — the same load with `custom_objects`
  (`LocationModel.load` strategy 3);
* `fresh_compile_ok` — compiling a freshly built architecture that never
  reads the artifact (`WeatherLSTMModel.load_model` strategy 3, the
  "untrained model" fallback); for a merely corrupt artifact this succeeds,
  since it does not touch the file;
* `scaler_load_ok` — `joblib.load` on the scaler artifact. -/
structure ArtifactEnv where
  model_file_exists : Bool
  h5_extract_ok : Bool
  keras_load_ok : Bool
  keras_custom_load_ok : Bool
  fresh_compile_ok : Bool
  scaler_file_exists : Bool
  scaler_load_ok : Bool
  scaler_fit : MinMaxScalerFit
  network : List Feat → Fin 30 → Feat

/-- Embedding of `WeatherLSTMModel.load_model` (called with an existing
path): strategy 1 extracts HDF5 weights into a fresh architecture;
strategy 2 loads via Keras and transfers weights; strategy 3 compiles the
fresh architecture without reading the artifact at all and returns an
untrained model; only when every strategy fails does it raise. -/
def lstm_load_model (e : ArtifactEnv) : Bool :=
  e.h5_extract_ok || e.keras_load_ok || e.fresh_compile_ok

/-- Embedding of `LocationModel.load`: `none` means `load()` did not
install a usable entry (it returned `False`, or raised and was caught by
`_load_all_models`); `some m` is the in-memory state on success.  A
missing model file aborts; the three model-load strategies are tried in
order (the first being `WeatherLSTMModel.load_model`'s own cascade); a
missing scaler file is tolerated with a warning, leaving the freshly
constructed `WeatherPreprocessor`'s scaler unfitted, while a present but
unloadable scaler raises into the outer `except` and yields `False`. -/
def location_model_load (slug : List Char) (e : ArtifactEnv) :
    Option LocationModel :=
  if e.model_file_exists = false then none
  else if (lstm_load_model e || e.keras_load_ok || e.keras_custom_load_ok) = false then
    none
  else if e.scaler_file_exists then
    if e.scaler_load_ok then
      some { location_slug := slug, scaler := some e.scaler_fit,
             network := e.network, is_loaded := true }
    else none
  else
    some { location_slug := slug, scaler := none,
           network := e.network, is_loaded := true }

/-- Embedding of `MultiLocationPredictor._load_all_models` over the
discovered model files (each already reduced to its slug, as the code does
with `model_file.stem.replace("lstm_", "")`): every pair is loaded
independently and only successful loads enter `self.models`. -/
def load_all_models (model_files : List (List Char × ArtifactEnv)) :
    List (List Char × LocationModel) :=
  model_files.filterMap (fun f =>
    (location_model_load f.1 f.2).map (fun m => (f.1, m)))

/-- Request body of `POST /predict/next-month`. -/
structure ForecastRequest where
  latitude : ℚ
  longitude : ℚ
  location : List Char

/-- The successful response payload assembled by `get_30_day_forecast`:
`format_for_response` output (`status`, `data.predictions`,
`data.summary`, `data.alerts`) plus the metadata the endpoint adds
(`data.location`, `data.coordinates`).  No other field is added. -/
structure ForecastResponse where
  status : List Char
  predictions : List WRow
  summary : Option SummaryStats
  alerts : Alerts
  location : List Char
  coordinates : ℚ × ℚ

/-- Embedding of the `POST /predict/next-month` handler
`get_30_day_forecast` in `src/main.py`, from the history-length guard
down: a missing or short history raises HTTP 400 before any prediction; a
prediction failure is caught and surfaced as HTTP 500; on success the
response carries the formatted payload with `data["location"]` set to
`request.location`, the caller's original string. -/
def get_30_day_forecast (models : List (List Char × LocationModel)) :
    Option (List WRow) → ForecastRequest → Except (ℕ × String) ForecastResponse
  | none, _ =>
    .error (400, "Insufficient historical data. Need at least 30 days of data.")
  | some historical_df, request =>
    if historical_df.length < 30 then
      .error (400, "Insufficient historical data. Need at least 30 days of data.")
    else
      match predict_next_month models historical_df request.location with
      | .error e => .error (500, "Error generating forecast: " ++ e)
      | .ok predictions =>
        .ok { status := "success".toList
              predictions := predictions
              summary := get_summary_stats predictions
              alerts := get_alert_suggestions predictions
              location := request.location
              coordinates := (request.latitude, request.longitude) }

/-- The `location_models_loaded` count reported by `GET /health`
(`len(predictor.models)`). -/
def health_location_models_loaded (models : List (List Char × LocationModel)) : ℕ :=
  models.length

/-- The models list of `GET /info/available-models`: every registry slug,
each reported with `"model_loaded": True`. -/
def available_models_info (models : List (List Char × LocationModel)) :
    List (List Char × Bool) :=
  models.map (fun f => (f.1, true))

/-- Spec-side restatement of the adaptive threshold rule, written from the
spec sentence "Threshold `t = 0.5mm if m < 1.0; 1.0mm if 1.0 ≤ m < 5.0;
5.0mm otherwise`", to be compared with the code-side
`rain_threshold_of_max`. -/
def spec_threshold (m : ℚ) : ℚ :=
  if m < 1 then 1/2 else if m < 5 then 1 else 5

/-- Length of the run of consecutive `p`-satisfying elements at the start
of the list (spec-side notion used to define the longest run). -/
def run_at_head (p : α → Bool) : List α → ℕ
  | [] => 0
  | x :: xs => if p x then run_at_head p xs + 1 else 0

/-- Length of the longest run of consecutive `p`-satisfying elements
anywhere in the list: the maximum, over all suffixes, of the run at that
suffix's head (spec-side notion: "the longest run of consecutive days"). -/
def longest_run (p : α → Bool) : List α → ℕ
  | [] => 0
  | x :: xs => max (run_at_head p (x :: xs)) (longest_run p xs)

/-- A 30-day series with constant features (used as concrete test data). -/
def const_series (tmax tmin rain : ℚ) : List WRow :=
  (List.range 30).map (fun i =>
    { date := i, temp_max := some tmax, temp_min := some tmin, rainfall := some rain })

/-- A 30-day series whose first day has NaN rainfall and whose other 29
days have zero rainfall. -/
def nan_series : List WRow :=
  { date := 0, temp_max := some 30, temp_min := some 20, rainfall := none } ::
    (List.range 29).map (fun i =>
      { date := (i : ℤ) + 1, temp_max := some 30, temp_min := some 20,
        rainfall := some 0 })

/-- A 10-row history (first 10 rows of the constant series). -/
def short_series : List WRow :=
  (const_series 30 20 0).take 10

/-- Fitted scaler content used by the concrete test artifacts. -/
def test_fit : MinMaxScalerFit :=
  { data_min := (0, 0, 0), data_max := (50, 40, 100) }

/-- A constant network function used by the concrete test artifacts. -/
def test_network : List Feat → Fin 30 → Feat :=
  fun _ _ => (some 30, some 20, some 1)

/-- A loaded location model with a fitted scaler (concrete test data). -/
def test_model : LocationModel :=
  { location_slug := "kasaba_doddaballapura".toList, scaler := some test_fit,
    network := test_network, is_loaded := true }

/-- A 30-row history with dates `0..29` (concrete test data). -/
def test_hist : List WRow :=
  (List.range 30).map (fun i =>
    { date := (i : ℤ), temp_max := some 30, temp_min := some 20, rainfall := some 1 })

/-- The forecast the test model produces on the test history. -/
def test_forecast : List WRow :=
  match predict_next_30_days test_model test_hist with
  | .ok f => f
  | .error _ => []

/-- The retention condition `_load_all_models` effectively applies to one
location's artifacts: the model file exists, at least one of the model
load strategies (including the untrained-model fallback) succeeds, and the
scaler either loads or is absent. -/
def retained_in_registry (e : ArtifactEnv) : Bool :=
  e.model_file_exists &&
    (e.h5_extract_ok || e.keras_load_ok || e.fresh_compile_ok ||
      e.keras_custom_load_ok) &&
    (!e.scaler_file_exists || e.scaler_load_ok)

/-- Artifact outcomes of a healthy location: everything loads. -/
def valid_env : ArtifactEnv :=
  { model_file_exists := true, h5_extract_ok := true, keras_load_ok := true,
    keras_custom_load_ok := true, fresh_compile_ok := true,
    scaler_file_exists := true, scaler_load_ok := true,
    scaler_fit := test_fit, network := test_network }

/-- Artifact outcomes of a present-but-corrupted model file: every
strategy that reads the artifact fails, but compiling the freshly built
untrained architecture (which never reads the file) succeeds. -/
def corrupt_env : ArtifactEnv :=
  { model_file_exists := true, h5_extract_ok := false, keras_load_ok := false,
    keras_custom_load_ok := false, fresh_compile_ok := true,
    scaler_file_exists := false, scaler_load_ok := false,
    scaler_fit := test_fit, network := test_network }

/-- Artifact outcomes of a missing model file. -/
def missing_env : ArtifactEnv :=
  { model_file_exists := false, h5_extract_ok := false, keras_load_ok := false,
    keras_custom_load_ok := false, fresh_compile_ok := false,
    scaler_file_exists := false, scaler_load_ok := false,
    scaler_fit := test_fit, network := test_network }

/-- The one-location registry used as a resolution-fallback test: only
the Kasaba (Doddaballapura) model is loaded. -/
def test_registry : List (List Char × LocationModel) :=
  [("kasaba_doddaballapura".toList, test_model)]

/-- A request whose location string matches no loaded slug. -/
def unknown_request : ForecastRequest :=
  { latitude := 13, longitude := 77, location := "Some Unknown Place".toList }

/-- Artifact outcomes with a loadable model but no scaler file. -/
def scalerless_env : ArtifactEnv :=
  { model_file_exists := true, h5_extract_ok := true, keras_load_ok := false,
    keras_custom_load_ok := false, fresh_compile_ok := false,
    scaler_file_exists := false, scaler_load_ok := false,
    scaler_fit := test_fit, network := test_network }

theorem run_at_head_le_longest_run (p : α → Bool) (l : List α) :
    run_at_head p l ≤ longest_run p l := by
  cases l with
  | nil => exact Nat.le_refl _
  | cons x xs => exact Nat.le_max_left _ _

/-- The streak loop of `get_alert_suggestions`, with a pending streak of
length `cur` and best-so-far `best`, computes the maximum of `best`, the
pending streak extended by the run at the head, and the longest run of the
remaining list. -/
theorem dry_streak_loop_eq (t : ℚ) (l : List Val) :
    ∀ cur best : ℕ, cur ≤ best →
      dry_streak_loop t l cur best =
        max best (max (cur + run_at_head (fun r => vlt r t) l)
          (longest_run (fun r => vlt r t) l)) := by
  induction l with
  | nil =>
    intro cur best h
    simp only [dry_streak_loop, run_at_head, longest_run]
    omega
  | cons x xs ih =>
    intro cur best h
    by_cases hx : vlt x t
    · simp only [dry_streak_loop, hx, if_true, run_at_head, longest_run]
      rw [ih (cur + 1) (max best (cur + 1)) (Nat.le_max_right _ _)]
      omega
    · simp only [dry_streak_loop, hx, if_false, Bool.false_eq_true, run_at_head, longest_run]
      rw [ih 0 best (Nat.zero_le _)]
      have hle := run_at_head_le_longest_run (fun r => vlt r t) xs
      omega

/-- The `max_dry_streak` computed by the loop in `get_alert_suggestions`
is exactly the longest run of consecutive values below the threshold. -/
theorem max_dry_streak_eq_longest_run (t : ℚ) (l : List Val) :
    max_dry_streak t l = longest_run (fun r => vlt r t) l := by
  unfold max_dry_streak
  rw [dry_streak_loop_eq t l 0 0 (Nat.le_refl 0)]
  have hle := run_at_head_le_longest_run (fun r => vlt r t) l
  omega

/-- For each rainfall value, exactly the non-NaN days are counted once
between the rainy (`> t`) and dry (`≤ t`) counts; NaN days are counted by
neither side. -/
theorem count_rainy_add_dry (t : ℚ) (l : List Val) :
    l.countP (fun r => vgt r t) + l.countP (fun r => vle r t) =
      l.countP (fun r => r.isSome) := by
  induction l with
  | nil => rfl
  | cons x xs ih =>
    cases x with
    | none => simpa [List.countP_cons, vgt, vle] using ih
    | some v =>
      rcases le_or_lt v t with hv | hv
      · have h1 : vgt (some v) t = false := by
          simp [vgt, not_lt.mpr hv]
        have h2 : vle (some v) t = true := by
          simp [vle, hv]
        simp [List.countP_cons, h1, h2, ih]
        omega
      · have h1 : vgt (some v) t = true := by
          simp [vgt, hv]
        have h2 : vle (some v) t = false := by
          simp [vle, not_le.mpr hv]
        simp [List.countP_cons, h1, h2, ih]
        omega

/-- A helper counting fact: the non-NaN and NaN entries of a column
together account for its length. -/
theorem count_some_add_none (l : List Val) :
    l.countP (fun r => r.isSome) + l.countP (fun r => r.isNone) = l.length := by
  induction l with
  | nil => rfl
  | cons x xs ih =>
    cases x <;> simp [List.countP_cons, ih] <;> omega

/-- The rainfall column of a constant series is thirty copies of the
constant. -/
theorem map_rainfall_const (tmax tmin r : ℚ) :
    (const_series tmax tmin r).map (·.rainfall) = List.replicate 30 (some r) :=
  rfl

theorem foldl_vmax_replicate (x : ℚ) :
    ∀ n : ℕ, (List.replicate n (some x)).foldl vmax (some x) = some x := by
  intro n
  induction n with
  | zero => rfl
  | succ n ih =>
    rw [List.replicate_succ, List.foldl_cons]
    have hx : vmax (some x) (some x) = some x := by
      simp [vmax]
    rw [hx]
    exact ih

theorem npMax_replicate30 (x : ℚ) :
    npMax (List.replicate 30 (some x)) = some x := by
  have h : (30 : ℕ) = 29 + 1 := rfl
  rw [h, List.replicate_succ]
  show (List.replicate 29 (some x)).foldl vmax (some x) = some x
  exact foldl_vmax_replicate x 29

/-- Threshold of a constant 30-day series, reduced to the threshold of its
constant value. -/
theorem summary_rain_threshold_const (tmax tmin r : ℚ) :
    summary_rain_threshold ((const_series tmax tmin r).map (·.rainfall)) =
      rain_threshold_of_max (some r) := by
  rw [map_rainfall_const]
  unfold summary_rain_threshold
  rw [npMax_replicate30]

/-- C1: for every forecast series the adaptive rain threshold computed by
the summary-statistics engine is a function of the series' maximum
rainfall `m`: `0.5` when `m < 1.0`, `1.0` when `1.0 ≤ m < 5.0`, `5.0` when
`m ≥ 5.0`; in particular max rainfall `0.3` yields `0.5`, `3.0` yields
`1.0`, and `20.0` yields `5.0`. -/
theorem C1_adaptive_threshold (s : List WRow) (m : ℚ)
    (h : npMax (s.map (·.rainfall)) = some m) :
    summary_rain_threshold (s.map (·.rainfall)) = spec_threshold m ∧
    summary_rain_threshold ((const_series 30 20 (3/10)).map (·.rainfall)) = 1/2 ∧
    summary_rain_threshold ((const_series 30 20 3).map (·.rainfall)) = 1 ∧
    summary_rain_threshold ((const_series 30 20 20).map (·.rainfall)) = 5 := by
  refine ⟨?_, ?_, ?_, ?_⟩
  · unfold summary_rain_threshold rain_threshold_of_max spec_threshold
    rw [h]
    simp [vlt]
  · rw [summary_rain_threshold_const]
    simp only [rain_threshold_of_max, vlt]
    norm_num
  · rw [summary_rain_threshold_const]
    simp only [rain_threshold_of_max, vlt]
    norm_num
  · rw [summary_rain_threshold_const]
    simp only [rain_threshold_of_max, vlt]
    norm_num

/-- C1 witness: the threshold rule evaluated at the series of thirty
`0.3 mm` days. -/
theorem C1_adaptive_threshold_witness :
    summary_rain_threshold ((const_series 30 20 (3/10)).map (·.rainfall)) =
      spec_threshold (3/10) :=
  (C1_adaptive_threshold (const_series 30 20 (3/10)) (3/10)
    (by rw [map_rainfall_const]; exact npMax_replicate30 (3/10))).1

/-- C2 counterexample: on a 30-day series containing one NaN rainfall
value the summary reports `rainy_days + dry_days = 29`, not `30` — the
NaN day is counted by neither side, so the claimed partition invariant
fails for series containing NaN. -/
theorem C2_partition_counterexample :
    nan_series.length = 30 ∧
    (get_summary_stats nan_series).map (fun st => st.rainy_days + st.dry_days) =
      some 29 ∧
    (get_summary_stats nan_series).map (fun st => st.rainy_days + st.dry_days) ≠
      some 30 := by
  decide

/-- C2 as amended: a day is counted rainy iff its rainfall compares
strictly greater than the adaptive threshold and dry iff it compares less
than or equal (a NaN rainfall satisfies neither comparison, so it is
counted by neither side); hence `rainy_days + dry_days` is `30` minus the
number of NaN rainfall days, and equals `30` exactly on NaN-free series. -/
theorem C2_partition (s : List WRow) (h : s.length = 30) :
    ∃ st, get_summary_stats s = some st ∧
      st.rainy_days = (s.map (·.rainfall)).countP
        (fun r => vgt r (summary_rain_threshold (s.map (·.rainfall)))) ∧
      st.dry_days = (s.map (·.rainfall)).countP
        (fun r => vle r (summary_rain_threshold (s.map (·.rainfall)))) ∧
      st.rainy_days + st.dry_days =
        30 - (s.map (·.rainfall)).countP (fun r => r.isNone) ∧
      ((s.map (·.rainfall)).all (fun r => r.isSome) →
        st.rainy_days + st.dry_days = 30) := by
  have hne : ¬ s = [] := by
    intro h0
    rw [h0] at h
    simp at h
  unfold get_summary_stats
  rw [if_neg hne]
  refine ⟨_, rfl, rfl, rfl, ?_, ?_⟩ <;> dsimp only
  · have hcount := count_rainy_add_dry
      (summary_rain_threshold (s.map (·.rainfall))) (s.map (·.rainfall))
    have htotal := count_some_add_none (s.map (·.rainfall))
    have hlen : (s.map (·.rainfall)).length = 30 := by simp [h]
    omega
  · intro hall
    have hcount := count_rainy_add_dry
      (summary_rain_threshold (s.map (·.rainfall))) (s.map (·.rainfall))
    have htotal := count_some_add_none (s.map (·.rainfall))
    have hlen : (s.map (·.rainfall)).length = 30 := by simp [h]
    have hfull : (s.map (·.rainfall)).countP (fun r => r.isSome) =
        (s.map (·.rainfall)).length := by
      refine List.countP_eq_length.mpr ?_
      intro a ha
      exact List.all_eq_true.mp hall a ha
    omega

/-- C2 witness: the amended partition statement evaluated at the NaN-free
constant series with 10 mm of daily rain. -/
theorem C2_partition_witness :
    ∃ st, get_summary_stats (const_series 30 20 10) = some st ∧
      st.rainy_days = ((const_series 30 20 10).map (·.rainfall)).countP
        (fun r => vgt r (summary_rain_threshold
          ((const_series 30 20 10).map (·.rainfall)))) ∧
      st.dry_days = ((const_series 30 20 10).map (·.rainfall)).countP
        (fun r => vle r (summary_rain_threshold
          ((const_series 30 20 10).map (·.rainfall)))) ∧
      st.rainy_days + st.dry_days =
        30 - ((const_series 30 20 10).map (·.rainfall)).countP (fun r => r.isNone) ∧
      (((const_series 30 20 10).map (·.rainfall)).all (fun r => r.isSome) →
        st.rainy_days + st.dry_days = 30) :=
  C2_partition (const_series 30 20 10) (by decide)

theorem run_at_head_of_all (p : α → Bool) :
    ∀ l : List α, (∀ x ∈ l, p x = true) → run_at_head p l = l.length := by
  intro l h
  induction l with
  | nil => rfl
  | cons x xs ih =>
    have hx : p x = true := h x (List.mem_cons_self x xs)
    simp only [run_at_head, hx, if_true, List.length_cons]
    have := ih (fun y hy => h y (List.mem_cons_of_mem x hy))
    omega

theorem longest_run_of_all (p : α → Bool) :
    ∀ l : List α, (∀ x ∈ l, p x = true) → longest_run p l = l.length := by
  intro l h
  induction l with
  | nil => rfl
  | cons x xs ih =>
    simp only [longest_run, List.length_cons]
    rw [run_at_head_of_all p (x :: xs) h,
      ih (fun y hy => h y (List.mem_cons_of_mem x hy))]
    simp

/-- C3: the `drought_risk` alert fires (value `1`) iff the longest run of
consecutive days whose rainfall is strictly below the adaptive threshold —
the same adaptive threshold the summary uses, not a fixed 5 mm — is
strictly greater than 15; on the all-zero series the threshold is `0.5`,
the run is `30`, and the alert fires. -/
theorem C3_drought_risk (predictions : List WRow) :
    ((get_alert_suggestions predictions).drought_risk = 1 ↔
      15 < longest_run
        (fun r => vlt r (summary_rain_threshold (predictions.map (·.rainfall))))
        (predictions.map (·.rainfall))) ∧
    summary_rain_threshold ((const_series 30 20 0).map (·.rainfall)) = 1/2 ∧
    longest_run (fun r => vlt r (1/2)) ((const_series 30 20 0).map (·.rainfall)) = 30 ∧
    (get_alert_suggestions (const_series 30 20 0)).drought_risk = 1 := by
  have hiff : ∀ s : List WRow,
      ((get_alert_suggestions s).drought_risk = 1 ↔
        15 < longest_run
          (fun r => vlt r (summary_rain_threshold (s.map (·.rainfall))))
          (s.map (·.rainfall))) := by
    intro s
    by_cases hne : s = []
    · subst hne
      simp [get_alert_suggestions, longest_run]
    · unfold get_alert_suggestions
      rw [if_neg hne]
      dsimp only
      rw [max_dry_streak_eq_longest_run]
      constructor
      · intro h1
        by_contra hnot
        simp only [not_lt] at hnot
        rw [if_neg (by omega)] at h1
        exact absurd h1 (by omega)
      · intro hgt
        rw [if_pos (by omega)]
  have hthr : summary_rain_threshold ((const_series 30 20 0).map (·.rainfall)) = 1/2 := by
    rw [summary_rain_threshold_const]
    simp only [rain_threshold_of_max, vlt]
    norm_num
  have hrun : longest_run (fun r => vlt r (1/2))
      ((const_series 30 20 0).map (·.rainfall)) = 30 := by
    rw [map_rainfall_const]
    rw [longest_run_of_all (fun r => vlt r (1/2)) _ ?_]
    · simp
    · intro x hx
      rw [List.eq_of_mem_replicate hx]
      simp only [vlt]
      norm_num
  refine ⟨hiff predictions, hthr, hrun, ?_⟩
  refine (hiff (const_series 30 20 0)).mpr ?_
  rw [hthr, hrun]
  norm_num

/-- C5: location resolution normalizes the input, then tries an exact
match, then a substring match in either direction, then falls back to the
first loaded slug; it raises only when zero models are loaded, and with at
least one model loaded it always returns a member of the loaded registry
(the match cascade is the body of `get_location_slug`). -/
theorem C5_resolution_total (models : List (List Char)) (name : List Char) :
    (models = [] → get_location_slug models name = .error "No models available") ∧
    (models ≠ [] → ∃ s, s ∈ models ∧ get_location_slug models name = .ok s) := by
  constructor
  · intro h
    subst h
    rfl
  · intro h
    obtain ⟨m0, rest, rfl⟩ := List.exists_cons_of_ne_nil h
    unfold get_location_slug
    by_cases hmem : normalize_location name ∈ m0 :: rest
    · rw [if_pos hmem]
      exact ⟨_, hmem, rfl⟩
    · rw [if_neg hmem]
      cases hfind : (m0 :: rest).find?
          (fun m => slug_loose_match (normalize_location name) m) with
      | some m => exact ⟨m, List.mem_of_find?_eq_some hfind, rfl⟩
      | none => exact ⟨m0, List.mem_cons_self m0 rest, rfl⟩

/-- C5 witness: resolving `"Bangalore"` raises on an empty registry and
returns a loaded slug on the full repository registry. -/
theorem C5_resolution_total_witness :
    get_location_slug [] "Bangalore".toList = .error "No models available" ∧
    (∃ s, s ∈ repo_slugs ∧
      get_location_slug repo_slugs "Bangalore".toList = .ok s) :=
  ⟨(C5_resolution_total [] "Bangalore".toList).1 rfl,
   (C5_resolution_total repo_slugs "Bangalore".toList).2 (by decide)⟩

/-- C9: normalization maps `"Kasaba, Doddaballapura"` to
`"kasaba,_doddaballapura"` — the comma survives, only spaces and hyphens
become underscores — which matches no repository slug exactly or by
substring in either direction, so on any registry loaded with the
repository's own slugs resolution falls through to the first discovered
slug. -/
theorem C9_comma_falls_through (models : List (List Char)) (m0 : List Char)
    (rest : List (List Char)) (hm : models = m0 :: rest)
    (hsub : ∀ s ∈ models, s ∈ repo_slugs) :
    normalize_location "Kasaba, Doddaballapura".toList =
      "kasaba,_doddaballapura".toList ∧
    (∀ s ∈ repo_slugs,
      normalize_location "Kasaba, Doddaballapura".toList ≠ s ∧
      slug_loose_match (normalize_location "Kasaba, Doddaballapura".toList) s =
        false) ∧
    get_location_slug models "Kasaba, Doddaballapura".toList = .ok m0 := by
  have hneq : ∀ s ∈ repo_slugs,
      normalize_location "Kasaba, Doddaballapura".toList ≠ s := by decide
  have hnomatch : ∀ s ∈ repo_slugs,
      slug_loose_match (normalize_location "Kasaba, Doddaballapura".toList) s =
        false := by decide
  refine ⟨by decide, fun s hs => ⟨hneq s hs, hnomatch s hs⟩, ?_⟩
  subst hm
  unfold get_location_slug
  rw [if_neg (fun hmem => hneq _ (hsub _ hmem) rfl)]
  have hfind : (m0 :: rest).find?
      (fun m => slug_loose_match
        (normalize_location "Kasaba, Doddaballapura".toList) m) = none := by
    refine List.find?_eq_none.mpr ?_
    intro x hx
    rw [hnomatch x (hsub x hx)]
    exact Bool.false_ne_true
  rw [hfind]

/-- C9 witness: on a registry of two repository slugs whose first entry is
not the Kasaba (Doddaballapura) slug, resolving the canonical display name
returns that first slug, not the location's own slug. -/
theorem C9_comma_falls_through_witness :
    normalize_location "Kasaba, Doddaballapura".toList =
      "kasaba,_doddaballapura".toList ∧
    (∀ s ∈ repo_slugs,
      normalize_location "Kasaba, Doddaballapura".toList ≠ s ∧
      slug_loose_match (normalize_location "Kasaba, Doddaballapura".toList) s =
        false) ∧
    get_location_slug ["sulibele_hosakote".toList, "kasaba_doddaballapura".toList]
      "Kasaba, Doddaballapura".toList = .ok "sulibele_hosakote".toList :=
  C9_comma_falls_through
    ["sulibele_hosakote".toList, "kasaba_doddaballapura".toList]
    "sulibele_hosakote".toList ["kasaba_doddaballapura".toList] rfl (by decide)

/-- C6: a missing history or one with fewer than 30 rows makes the
forecast endpoint fail with HTTP 400 and the insufficient-history detail
before any prediction is attempted, and any prediction failure on a long
enough history is surfaced as HTTP 500. -/
theorem C6_insufficient_history (models : List (List Char × LocationModel))
    (historical : Option (List WRow)) (request : ForecastRequest) :
    (historical = none →
      get_30_day_forecast models historical request =
        .error (400, "Insufficient historical data. Need at least 30 days of data.")) ∧
    (∀ hist, historical = some hist → hist.length < 30 →
      get_30_day_forecast models historical request =
        .error (400, "Insufficient historical data. Need at least 30 days of data.")) ∧
    (∀ hist e, historical = some hist → 30 ≤ hist.length →
      predict_next_month models hist request.location = .error e →
      get_30_day_forecast models historical request =
        .error (500, "Error generating forecast: " ++ e)) := by
  refine ⟨?_, ?_, ?_⟩
  · intro h
    subst h
    rfl
  · intro hist h hlen
    subst h
    show (if hist.length < 30 then _ else _) = _
    rw [if_pos hlen]
  · intro hist e h hge hpred
    subst h
    show (if hist.length < 30 then _ else _) = _
    rw [if_neg (by omega), hpred]

/-- C6 witness: a 10-row history gets HTTP 400, and with an empty
registry a full-length history gets HTTP 500 from the propagated
no-models failure. -/
theorem C6_insufficient_history_witness :
    get_30_day_forecast [] (some short_series) ⟨13, 77, "X".toList⟩ =
      .error (400, "Insufficient historical data. Need at least 30 days of data.") ∧
    get_30_day_forecast [] (some (const_series 30 20 0)) ⟨13, 77, "X".toList⟩ =
      .error (500, "Error generating forecast: " ++ "No models available") :=
  ⟨(C6_insufficient_history [] (some short_series) ⟨13, 77, "X".toList⟩).2.1
      short_series rfl (by decide),
   (C6_insufficient_history [] (some (const_series 30 20 0)) ⟨13, 77, "X".toList⟩).2.2
      (const_series 30 20 0) "No models available" rfl (by decide) rfl⟩

theorem foldl_max_le (xs : List ℤ) :
    ∀ a D : ℤ, a ≤ D → (∀ x ∈ xs, x ≤ D) → xs.foldl max a ≤ D := by
  induction xs with
  | nil => intro a D ha _; exact ha
  | cons x xs ih =>
    intro a D ha hx
    rw [List.foldl_cons]
    exact ih (max a x) D (max_le ha (hx x (List.mem_cons_self x xs)))
      (fun y hy => hx y (List.mem_cons_of_mem x hy))

theorem le_foldl_max_init (xs : List ℤ) :
    ∀ a : ℤ, a ≤ xs.foldl max a := by
  induction xs with
  | nil => intro a; exact le_refl a
  | cons x xs ih =>
    intro a
    rw [List.foldl_cons]
    exact le_trans (le_max_left a x) (ih (max a x))

theorem mem_le_foldl_max (xs : List ℤ) :
    ∀ (a x : ℤ), x ∈ xs → x ≤ xs.foldl max a := by
  induction xs with
  | nil => intro a x hx; exact absurd hx (List.not_mem_nil x)
  | cons y ys ih =>
    intro a x hx
    rw [List.foldl_cons]
    rcases List.mem_cons.mp hx with rfl | hx
    · exact le_trans (le_max_right a x) (le_foldl_max_init ys (max a x))
    · exact ih (max a y) x hx

/-- The pandas date maximum is the last row's date whenever the last row
carries the largest date (as it does for the ascending histories the data
provider supplies). -/
theorem pd_date_max_eq (hist : List WRow) (D : ℤ)
    (hmem : D ∈ hist.map (·.date)) (hub : ∀ r ∈ hist, r.date ≤ D) :
    pd_date_max hist = D := by
  unfold pd_date_max
  cases hd : hist.map (·.date) with
  | nil =>
    rw [hd] at hmem
    exact absurd hmem (List.not_mem_nil D)
  | cons d ds =>
    have hub' : ∀ x ∈ d :: ds, x ≤ D := by
      intro x hx
      rw [← hd] at hx
      obtain ⟨r, hr, rfl⟩ := List.mem_map.mp hx
      exact hub r hr
    have hle : ds.foldl max d ≤ D :=
      foldl_max_le ds d D (hub' d (List.mem_cons_self d ds))
        (fun y hy => hub' y (List.mem_cons_of_mem d hy))
    have hge : D ≤ ds.foldl max d := by
      rw [hd] at hmem
      rcases List.mem_cons.mp hmem with rfl | hmem
      · exact le_foldl_max_init ds D
      · exact mem_le_foldl_max ds d D hmem
    have hmx : (d :: ds).max? = some (ds.foldl max d) := rfl
    rw [hmx]
    exact le_antisymm hle hge

/-- C4: when the last row of the history carries date `D` (and, as the
sorted histories this system consumes guarantee, no other row exceeds it),
a successful forecast has exactly 30 records with dates
`D+1, D+2, ..., D+30`, one calendar day apart, regardless of gaps inside
the history. -/
theorem C4_forecast_dates (m : LocationModel) (hist : List WRow) (D : ℤ)
    (hne : hist ≠ []) (hlast : (hist.getLast hne).date = D)
    (hub : ∀ r ∈ hist, r.date ≤ D)
    (forecast : List WRow)
    (hok : predict_next_30_days m hist = .ok forecast) :
    forecast.length = 30 ∧
    ∀ i (hi : i < forecast.length), (forecast.get ⟨i, hi⟩).date = D + i + 1 := by
  have hmax : pd_date_max hist = D := by
    refine pd_date_max_eq hist D ?_ hub
    rw [← hlast]
    exact List.mem_map.mpr ⟨hist.getLast hne, List.getLast_mem hne, rfl⟩
  unfold predict_next_30_days at hok
  cases hL : m.is_loaded with
  | false =>
    rw [hL] at hok
    simp at hok
  | true =>
    rw [hL] at hok
    simp only [Bool.true_eq_false, if_false] at hok
    cases hS : m.scaler with
    | none =>
      rw [hS] at hok
      simp at hok
    | some p =>
      rw [hS] at hok
      simp only [Except.ok.injEq] at hok
      subst hok
      refine ⟨by rw [List.length_map, List.length_finRange], ?_⟩
      intro i hi
      have hlen : i < 30 := by
        rw [List.length_map, List.length_finRange] at hi
        exact hi
      rw [List.get_eq_getElem, List.getElem_map, List.getElem_finRange]
      dsimp only
      rw [hmax]
      push_cast [Fin.coe_cast]
      ring

/-- C4 witness: the test forecast has 30 rows dated `30..59`, one day
after the last historical date `29`. -/
theorem C4_forecast_dates_witness :
    test_forecast.length = 30 ∧
    ∀ i (hi : i < test_forecast.length),
      (test_forecast.get ⟨i, hi⟩).date = 29 + i + 1 :=
  C4_forecast_dates test_model test_hist 29 (by decide) (by decide) (by decide)
    test_forecast rfl

theorem location_model_load_isSome (slug : List Char) (e : ArtifactEnv) :
    (location_model_load slug e).isSome = retained_in_registry e := by
  obtain ⟨mf, h5, kl, kc, fc, sf, sl, fit, net⟩ := e
  cases mf <;> cases h5 <;> cases kl <;> cases kc <;> cases fc <;> cases sf <;>
    cases sl <;> rfl

/-- C7 counterexample: one corrupted model artifact among one valid one
yields a registry of size 2, not 1 — the corrupted artifact is retained
through `WeatherLSTMModel.load_model`'s strategy-3 untrained-model
fallback, which compiles a fresh architecture without reading the file. -/
theorem C7_corrupt_retained_counterexample :
    (load_all_models [("good".toList, valid_env), ("bad".toList, corrupt_env)]).map
        (·.1) = ["good".toList, "bad".toList] ∧
    (load_all_models [("good".toList, valid_env), ("bad".toList, corrupt_env)]).length
        = 2 ∧
    ¬ (load_all_models
        [("good".toList, valid_env), ("bad".toList, corrupt_env)]).length = 1 :=
  ⟨rfl, rfl, by decide⟩

/-- C7 as amended: each location's artifacts are loaded independently and
a location is retained iff its model file exists, some load strategy
succeeds — which includes the untrained-model fallback that succeeds even
for a corrupted artifact — and its scaler loads or is absent.  A MISSING
model artifact among N valid ones yields a registry of exactly N, but a
corrupted (present) artifact is retained as an untrained model, yielding
N + 1. -/
theorem C7_registry_isolation (model_files : List (List Char × ArtifactEnv)) :
    ((load_all_models model_files).map (·.1) =
      (model_files.filter (fun f => retained_in_registry f.2)).map (·.1)) ∧
    (load_all_models [("good".toList, valid_env), ("missing".toList, missing_env)]).map
        (·.1) = ["good".toList] ∧
    (load_all_models [("good".toList, valid_env), ("bad".toList, corrupt_env)]).map
        (·.1) = ["good".toList, "bad".toList] := by
  refine ⟨?_, rfl, rfl⟩
  induction model_files with
  | nil => rfl
  | cons f fs ih =>
    unfold load_all_models
    rw [List.filterMap_cons, List.filter_cons]
    cases hra : retained_in_registry f.2 with
    | false =>
      have hnone : location_model_load f.1 f.2 = none := by
        have hsome := location_model_load_isSome f.1 f.2
        rw [hra] at hsome
        cases ho : location_model_load f.1 f.2 with
        | none => rfl
        | some m =>
          rw [ho] at hsome
          simp at hsome
      rw [hnone]
      simp only [Bool.false_eq_true, if_false]
      exact ih
    | true =>
      have hsome := location_model_load_isSome f.1 f.2
      rw [hra] at hsome
      obtain ⟨m, hm⟩ := Option.isSome_iff_exists.mp (by rw [hsome])
      rw [hm]
      simp
      exact ih

/-- C8 counterexample: on a request whose location resolves (by fallback)
to the slug `kasaba_doddaballapura`, the successful response's
`data.location` field carries the caller's original string
`"Some Unknown Place"`, not the resolved slug — so the caller cannot see
that fallback resolution occurred. -/
theorem C8_slug_not_echoed_counterexample :
    (get_30_day_forecast test_registry (some test_hist) unknown_request).toOption.map
      (fun r => r.location) = some "Some Unknown Place".toList ∧
    get_location_slug (test_registry.map (·.1)) unknown_request.location =
      .ok "kasaba_doddaballapura".toList ∧
    ¬ (get_30_day_forecast test_registry (some test_hist) unknown_request).toOption.map
      (fun r => r.location) = some "kasaba_doddaballapura".toList := by
  refine ⟨rfl, rfl, ?_⟩
  intro hcontra
  rw [show (get_30_day_forecast test_registry (some test_hist)
      unknown_request).toOption.map (fun r => r.location) =
      some "Some Unknown Place".toList from rfl] at hcontra
  exact absurd (Option.some.inj hcontra) (by decide)

/-- Defining equation of the endpoint on a present history, used to
reason about its successful branch. -/
theorem get_30_day_forecast_some (models : List (List Char × LocationModel))
    (hist : List WRow) (request : ForecastRequest) :
    get_30_day_forecast models (some hist) request =
      if hist.length < 30 then
        .error (400, "Insufficient historical data. Need at least 30 days of data.")
      else
        match predict_next_month models hist request.location with
        | .error e => .error (500, "Error generating forecast: " ++ e)
        | .ok predictions =>
          .ok { status := "success".toList
                predictions := predictions
                summary := get_summary_stats predictions
                alerts := get_alert_suggestions predictions
                location := request.location
                coordinates := (request.latitude, request.longitude) } :=
  rfl

/-- C8 as amended: the response's `data["location"]` field always echoes
the caller's original location string (`request.location`); the resolved
slug is not attached to the response, so fallback resolution is not
detectable from the payload. -/
theorem C8_location_echo (models : List (List Char × LocationModel))
    (historical : Option (List WRow)) (request : ForecastRequest)
    (resp : ForecastResponse)
    (h : get_30_day_forecast models historical request = .ok resp) :
    resp.location = request.location := by
  cases historical with
  | none =>
    exact absurd h (by simp [get_30_day_forecast])
  | some hist =>
    rw [get_30_day_forecast_some] at h
    by_cases hlen : hist.length < 30
    · rw [if_pos hlen] at h
      exact absurd h (by simp)
    · rw [if_neg hlen] at h
      cases hp : predict_next_month models hist request.location with
      | error e =>
        rw [hp] at h
        exact absurd h (by simp)
      | ok preds =>
        rw [hp] at h
        injection h with h2
        rw [← h2]

/-- C8 witness: the echo property evaluated on the concrete fallback
request. -/
theorem C8_location_echo_witness :
    ∃ resp, get_30_day_forecast test_registry (some test_hist) unknown_request =
      .ok resp ∧ resp.location = unknown_request.location := by
  refine ⟨_, rfl, ?_⟩
  exact C8_location_echo test_registry (some test_hist) unknown_request _ rfl

/-- C10: when the model artifact loads but the scaler artifact is absent,
the entry is still installed as loaded with a never-fitted scaler; every
forecast for it then fails at the normalization step with the
unfitted-scaler error, while the location still counts in `/health` and is
listed as loaded by `/info/available-models`. -/
theorem C10_scaler_absent (slug : List Char) (e : ArtifactEnv)
    (hm : e.model_file_exists = true)
    (hl : (lstm_load_model e || e.keras_load_ok || e.keras_custom_load_ok) = true)
    (hs : e.scaler_file_exists = false) :
    location_model_load slug e = some
      { location_slug := slug, scaler := none, network := e.network,
        is_loaded := true } ∧
    (∀ hist, predict_next_30_days
      { location_slug := slug, scaler := none, network := e.network,
        is_loaded := true } hist =
      .error "NotFittedError: This MinMaxScaler instance is not fitted yet") ∧
    (load_all_models [(slug, e)]).map (·.1) = [slug] ∧
    health_location_models_loaded (load_all_models [(slug, e)]) = 1 ∧
    available_models_info (load_all_models [(slug, e)]) = [(slug, true)] := by
  have hload : location_model_load slug e = some
      { location_slug := slug, scaler := none, network := e.network,
        is_loaded := true } := by
    unfold location_model_load
    rw [hm, hl, hs]
    rfl
  refine ⟨hload, fun hist => rfl, ?_, ?_, ?_⟩
  · simp [load_all_models, hload]
  · simp [health_location_models_loaded, load_all_models, hload]
  · simp [available_models_info, load_all_models, hload]

/-- C10 witness: the scaler-absent behaviour evaluated on a concrete
artifact environment. -/
theorem C10_scaler_absent_witness :
    location_model_load "kasaba_hosakote".toList scalerless_env = some
      { location_slug := "kasaba_hosakote".toList, scaler := none,
        network := scalerless_env.network, is_loaded := true } ∧
    (∀ hist, predict_next_30_days
      { location_slug := "kasaba_hosakote".toList, scaler := none,
        network := scalerless_env.network, is_loaded := true } hist =
      .error "NotFittedError: This MinMaxScaler instance is not fitted yet") ∧
    (load_all_models [("kasaba_hosakote".toList, scalerless_env)]).map (·.1) =
      ["kasaba_hosakote".toList] ∧
    health_location_models_loaded
      (load_all_models [("kasaba_hosakote".toList, scalerless_env)]) = 1 ∧
    available_models_info
      (load_all_models [("kasaba_hosakote".toList, scalerless_env)]) =
      [("kasaba_hosakote".toList, true)] :=
  C10_scaler_absent "kasaba_hosakote".toList scalerless_env rfl rfl rfl

end Farmer
